import Mathlib

/-!
Verification of the WenShape coordination layer (session state machine,
provider gateway, token budgeter, token counter) against its
natural-language specification.

The definitions below are a shallow embedding of the Python sources:
- `backend/app/orchestrator/orchestrator.py` (session controller)
- `backend/app/routers/session.py` (cancel endpoint)
- `backend/app/llm_gateway/gateway.py` (provider gateway)
- `backend/app/context_engine/budgeter.py` (token budgeter)
- `backend/app/context_engine/token_counter.py` (context windows)

External collaborators (role agents, storage, the HTTP layer, concrete
provider SDK clients) are modelled as environment parameters carrying
their observable outcomes; the coordination logic itself is translated
line by line from the source.
-/

/-! ## Session controller (orchestrator.py) -/

/-- Embedding of the `SessionStatus` enum of `orchestrator.py`. -/
inductive SessionStatus where
  | idle
  | generating_brief
  | writing_draft
  | reviewing
  | editing
  | waiting_feedback
  | completed
  | error
deriving DecidableEq, Repr

/-- String value of each status, mirroring the Python enum values. -/
def SessionStatus.value : SessionStatus → String
  | .idle => "idle"
  | .generating_brief => "generating_brief"
  | .writing_draft => "writing_draft"
  | .reviewing => "reviewing"
  | .editing => "editing"
  | .waiting_feedback => "waiting_feedback"
  | .completed => "completed"
  | .error => "error"

/-- Payload sent to the progress callback. `_update_status` includes an
`iteration` field, `_handle_error` omits it, hence the `Option`. -/
structure NotifyPayload where
  status : String
  message : String
  project_id : Option String
  chapter : Option String
  iteration : Option Int
deriving DecidableEq, Repr

/-- The four role agents invoked by the orchestrator. -/
inductive AgentName where
  | archivist
  | writer
  | reviewer
  | editor
deriving DecidableEq, Repr

/-- Observable events produced during a controller operation: a progress
notification to the registered sink, or the invocation of a role agent. -/
inductive Event where
  | notify (payload : NotifyPayload)
  | agentCall (agent : AgentName)
deriving DecidableEq, Repr

/-- Outcome of one role-agent `execute` call: a structured result with a
`success` flag, or a raised exception carrying its message. Role agents
are external collaborators, so their outcome is an environment input. -/
inductive AgentOutcome where
  | ok (success : Bool)
  | raise (msg : String)
deriving DecidableEq, Repr

/-- Environment for one `start_session` run: the outcome of each of the
four role-agent calls, in pipeline order. -/
structure StartEnv where
  archivist : AgentOutcome
  writer : AgentOutcome
  reviewer : AgentOutcome
  editor : AgentOutcome
deriving DecidableEq, Repr

/-- Environment for one `process_feedback` call: the outcomes of the
reviewer and editor calls on the revise path, and the draft-storage
answers used by `_finalize_chapter` on the confirm path. -/
structure FeedbackEnv where
  reviewer : AgentOutcome
  editor : AgentOutcome
  has_versions : Bool
  has_draft_content : Bool
deriving DecidableEq, Repr

/-- Mutable session state of the `Orchestrator` class. Python integers
are unbounded and signed, so `iteration_count` is embedded as `Int`. -/
structure Orchestrator where
  current_status : SessionStatus
  current_project_id : Option String
  current_chapter : Option String
  iteration_count : Int
  max_iterations : Int
deriving DecidableEq, Repr

/-- State of a freshly constructed `Orchestrator` (its `__init__`). -/
def Orchestrator.fresh : Orchestrator :=
  { current_status := SessionStatus.idle
    current_project_id := none
    current_chapter := none
    iteration_count := 0
    max_iterations := 5 }

/-- Result dictionary returned by the orchestrator entry points. Only the
keys present in the given branch are `some`. -/
structure SessionResult where
  success : Bool
  status : Option SessionStatus
  error : Option String
  message : Option String
  iteration : Option Int
deriving DecidableEq, Repr

/-- Embedding of `Orchestrator._update_status`: set the status and emit a
notification built from the state after the assignment. -/
def update_status (o : Orchestrator) (status : SessionStatus) (message : String) :
    Orchestrator × Event :=
  let o2 := { o with current_status := status }
  (o2, Event.notify
    { status := status.value
      message := message
      project_id := o2.current_project_id
      chapter := o2.current_chapter
      iteration := some o2.iteration_count })

/-- Embedding of `Orchestrator._handle_error`: set status to ERROR, emit an
error notification (without an iteration field), and return a failure
result. -/
def handle_error (o : Orchestrator) (error_message : String) :
    SessionResult × Orchestrator × List Event :=
  let o2 := { o with current_status := SessionStatus.error }
  (⟨false, some SessionStatus.error, some error_message, none, none⟩, o2,
    [Event.notify
      { status := SessionStatus.error.value
        message := error_message
        project_id := o2.current_project_id
        chapter := o2.current_chapter
        iteration := none }])

/-- Prepend the events accumulated so far to the events of a tail
computation. -/
def prepend_events (evs : List Event) (r : SessionResult × Orchestrator × List Event) :
    SessionResult × Orchestrator × List Event :=
  (r.1, r.2.1, evs ++ r.2.2)

/-- Embedding of `Orchestrator.start_session`. Storage reads between the
steps are pure external collaborators with no effect on the controller
state, so they do not appear. Each role-agent call is preceded by the
corresponding `_update_status` notification, exactly as in the source. -/
def start_session (o : Orchestrator) (project_id chapter : String) (env : StartEnv) :
    SessionResult × Orchestrator × List Event :=
  let o := { o with
    current_project_id := some project_id
    current_chapter := some chapter
    iteration_count := 0 }
  let s1 := update_status o SessionStatus.generating_brief "资料管理员正在整理设定..."
  let o := s1.1
  let evs := [s1.2, Event.agentCall AgentName.archivist]
  match env.archivist with
  | AgentOutcome.raise m => prepend_events evs (handle_error o ("Session error: " ++ m))
  | AgentOutcome.ok false => prepend_events evs (handle_error o "Scene brief generation failed")
  | AgentOutcome.ok true =>
    let s2 := update_status o SessionStatus.writing_draft "撰稿人正在撰写草稿..."
    let o := s2.1
    let evs := evs ++ [s2.2, Event.agentCall AgentName.writer]
    match env.writer with
    | AgentOutcome.raise m => prepend_events evs (handle_error o ("Session error: " ++ m))
    | AgentOutcome.ok false => prepend_events evs (handle_error o "Draft generation failed")
    | AgentOutcome.ok true =>
      let s3 := update_status o SessionStatus.reviewing "审稿人正在审核草稿..."
      let o := s3.1
      let evs := evs ++ [s3.2, Event.agentCall AgentName.reviewer]
      match env.reviewer with
      | AgentOutcome.raise m => prepend_events evs (handle_error o ("Session error: " ++ m))
      | AgentOutcome.ok false => prepend_events evs (handle_error o "Review failed")
      | AgentOutcome.ok true =>
        let s4 := update_status o SessionStatus.editing "编辑正在修订草稿..."
        let o := s4.1
        let evs := evs ++ [s4.2, Event.agentCall AgentName.editor]
        match env.editor with
        | AgentOutcome.raise m => prepend_events evs (handle_error o ("Session error: " ++ m))
        | AgentOutcome.ok false => prepend_events evs (handle_error o "Editing failed")
        | AgentOutcome.ok true =>
          let s5 := update_status o SessionStatus.waiting_feedback "等待用户反馈..."
          let o := s5.1
          (⟨true, some SessionStatus.waiting_feedback, none, none, some o.iteration_count⟩,
            o, evs ++ [s5.2])

/-- The policy-level rejection returned by `process_feedback` once the
iteration ceiling is hit; it has no `status` key. -/
def max_iter_rejection : SessionResult :=
  ⟨false, none, some "Maximum iterations reached",
    some "已达到最大迭代次数，建议确认当前版本或手动编辑", none⟩

/-- Embedding of `Orchestrator._finalize_chapter` (the confirm path).
The draft-storage answers come from the environment; `_analyze_content`
swallows its own exceptions and touches no controller state. -/
def finalize_chapter (o : Orchestrator) (env : FeedbackEnv) :
    SessionResult × Orchestrator × List Event :=
  if env.has_versions = false then handle_error o "No draft found to finalize"
  else if env.has_draft_content = false then handle_error o "No draft content found to finalize"
  else
    let s := update_status o SessionStatus.completed "章节完成！"
    (⟨true, some SessionStatus.completed, none, some "Chapter finalized successfully", none⟩,
      s.1, [s.2])

/-- Embedding of `Orchestrator.process_feedback`. Note the exact source
order on the revise path: the increment of `iteration_count` happens
first, then the `>=` ceiling check (returning the rejection while the
increment stays in place), then the reviewer call (whose `success` flag
is never inspected), then the editor call. -/
def process_feedback (o : Orchestrator) (feedback action : String) (env : FeedbackEnv) :
    SessionResult × Orchestrator × List Event :=
  if action = "confirm" then
    finalize_chapter o env
  else
    let o := { o with iteration_count := o.iteration_count + 1 }
    if o.max_iterations ≤ o.iteration_count then
      (max_iter_rejection, o, [])
    else
      let s1 := update_status o SessionStatus.reviewing "根据反馈重新审核..."
      let o := s1.1
      let evs := [s1.2, Event.agentCall AgentName.reviewer]
      match env.reviewer with
      | AgentOutcome.raise m =>
        prepend_events evs (handle_error o ("Feedback processing error: " ++ m))
      | AgentOutcome.ok _ =>
        let s2 := update_status o SessionStatus.editing "根据反馈修订..."
        let o := s2.1
        let evs := evs ++ [s2.2, Event.agentCall AgentName.editor]
        match env.editor with
        | AgentOutcome.raise m =>
          prepend_events evs (handle_error o ("Feedback processing error: " ++ m))
        | AgentOutcome.ok false => prepend_events evs (handle_error o "Revision failed")
        | AgentOutcome.ok true =>
          let s3 := update_status o SessionStatus.waiting_feedback "等待用户反馈..."
          let o := s3.1
          (⟨true, some SessionStatus.waiting_feedback, none, none, some o.iteration_count⟩,
            o, evs ++ [s3.2])

/-- Result of the cancel endpoint (`routers/session.py`). -/
structure CancelResult where
  success : Bool
  message : String
deriving DecidableEq, Repr

/-- Embedding of `cancel_session` from `routers/session.py`: reset status,
project and chapter, broadcast one idle notification whose iteration
field is the literal 0. The orchestrator field `iteration_count` itself
is not assigned by the endpoint. -/
def cancel_session (o : Orchestrator) (project_id : String) :
    CancelResult × Orchestrator × List Event :=
  let o2 := { o with
    current_status := SessionStatus.idle
    current_project_id := none
    current_chapter := none }
  (⟨true, "Session cancelled"⟩, o2,
    [Event.notify
      { status := SessionStatus.idle.value
        message := "Session cancelled"
        project_id := some project_id
        chapter := none
        iteration := some 0 }])

/-- One controller operation, for reachability statements. -/
inductive SessionOp where
  | start (project_id chapter : String) (env : StartEnv)
  | feedback (feedback action : String) (env : FeedbackEnv)
  | cancel (project_id : String)
deriving DecidableEq, Repr

/-- State transformer of one operation (result and events projected away). -/
def apply_op (o : Orchestrator) : SessionOp → Orchestrator
  | SessionOp.start pid ch env => (start_session o pid ch env).2.1
  | SessionOp.feedback fb action env => (process_feedback o fb action env).2.1
  | SessionOp.cancel pid => (cancel_session o pid).2.1

/-- Run a sequence of controller operations from a state. -/
def run_ops (o : Orchestrator) (ops : List SessionOp) : Orchestrator :=
  ops.foldl apply_op o

/-- Environment in which all four role agents report success. -/
def allOkStart : StartEnv :=
  ⟨AgentOutcome.ok true, AgentOutcome.ok true, AgentOutcome.ok true, AgentOutcome.ok true⟩

/-- Feedback environment in which both agents succeed and drafts exist. -/
def allOkFb : FeedbackEnv :=
  ⟨AgentOutcome.ok true, AgentOutcome.ok true, true, true⟩

/-- Status of a notify event, for extracting the notification trace. -/
def eventStatus : Event → Option String
  | Event.notify p => some p.status
  | Event.agentCall _ => none

/-! ## Orchestrator lemmas -/

/-- After any `start_session` run the iteration counter is 0: it is reset
at the top of the method and no later branch writes it. -/
theorem start_session_iteration_eq (o : Orchestrator) (pid ch : String) (env : StartEnv) :
    (start_session o pid ch env).2.1.iteration_count = 0 := by
  unfold start_session
  rcases env with ⟨a, w, r, e⟩
  rcases a with ⟨(_ | _)⟩ | ⟨m⟩ <;>
    rcases w with ⟨(_ | _)⟩ | ⟨m2⟩ <;>
      rcases r with ⟨(_ | _)⟩ | ⟨m3⟩ <;>
        rcases e with ⟨(_ | _)⟩ | ⟨m4⟩ <;>
          simp [update_status, handle_error, prepend_events]

/-- A `process_feedback` call leaves the iteration counter unchanged
(confirm path) or increments it by exactly 1 (revise path, including the
rejected and failing branches). -/
theorem process_feedback_iteration_eq (o : Orchestrator) (fb action : String)
    (env : FeedbackEnv) :
    (process_feedback o fb action env).2.1.iteration_count = o.iteration_count ∨
    (process_feedback o fb action env).2.1.iteration_count = o.iteration_count + 1 := by
  by_cases hc : action = "confirm"
  · left
    rcases env with ⟨r, e, hv, hd⟩
    rcases hv <;> rcases hd <;>
      simp [process_feedback, finalize_chapter, hc, update_status, handle_error, prepend_events]
  · right
    by_cases hle : o.max_iterations ≤ o.iteration_count + 1
    · simp [process_feedback, hc, hle]
    · rcases env with ⟨r, e, hv, hd⟩
      rcases r with ⟨(_ | _)⟩ | ⟨m⟩ <;>
        rcases e with ⟨(_ | _)⟩ | ⟨m2⟩ <;>
          simp [process_feedback, hc, hle, update_status, handle_error, prepend_events]

/-- Cancelling leaves the iteration counter untouched. -/
theorem cancel_session_iteration_eq (o : Orchestrator) (pid : String) :
    (cancel_session o pid).2.1.iteration_count = o.iteration_count := rfl

/-- Each single operation preserves non-negativity of the counter. -/
theorem apply_op_iteration_nonneg (o : Orchestrator) (op : SessionOp)
    (h : 0 ≤ o.iteration_count) : 0 ≤ (apply_op o op).iteration_count := by
  cases op with
  | start pid ch env =>
    show 0 ≤ (start_session o pid ch env).2.1.iteration_count
    rw [start_session_iteration_eq]
  | feedback fb action env =>
    show 0 ≤ (process_feedback o fb action env).2.1.iteration_count
    rcases process_feedback_iteration_eq o fb action env with h1 | h1 <;> rw [h1] <;> omega
  | cancel pid =>
    show 0 ≤ (cancel_session o pid).2.1.iteration_count
    rw [cancel_session_iteration_eq]
    exact h

/-- Non-negativity is preserved along any operation sequence. -/
theorem run_ops_iteration_nonneg_aux (ops : List SessionOp) :
    ∀ o : Orchestrator, 0 ≤ o.iteration_count → 0 ≤ (run_ops o ops).iteration_count := by
  induction ops with
  | nil => intro o h; exact h
  | cons op rest ih =>
    intro o h
    exact ih (apply_op o op) (apply_op_iteration_nonneg o op h)

/-! ## Claims about the session controller -/

/-- Claim C1 (amended): for action = revise, `process_feedback` increments
`iteration_count` by exactly 1 on every call, including rejected ones;
the call is rejected with the policy-level maximum-iterations result
exactly when the incremented value reaches or exceeds `max_iterations`,
and the increment persists even then (the rejection does mutate
`iteration_count`). -/
theorem process_feedback_revise_increments_and_rejects
    (o : Orchestrator) (fb action : String) (env : FeedbackEnv)
    (h : action = "revise") :
    (process_feedback o fb action env).2.1.iteration_count = o.iteration_count + 1 ∧
    ((process_feedback o fb action env).1 = max_iter_rejection ↔
      o.max_iterations ≤ o.iteration_count + 1) := by
  subst h
  have hc : ¬("revise" : String) = "confirm" := by decide
  by_cases hle : o.max_iterations ≤ o.iteration_count + 1
  · constructor
    · simp [process_feedback, hc, hle]
    · simp [process_feedback, hc, hle]
  · constructor
    · rcases env with ⟨r, e, hv, hd⟩
      rcases r with ⟨(_ | _)⟩ | ⟨m⟩ <;>
        rcases e with ⟨(_ | _)⟩ | ⟨m2⟩ <;>
          simp [process_feedback, hc, hle, update_status, handle_error, prepend_events]
    · rcases env with ⟨r, e, hv, hd⟩
      rcases r with ⟨(_ | _)⟩ | ⟨m⟩ <;>
        rcases e with ⟨(_ | _)⟩ | ⟨m2⟩ <;>
          simp [process_feedback, hc, hle, update_status, handle_error, prepend_events,
            max_iter_rejection]

/-- Witness for C1 (amended) at a concrete session state with
`iteration_count = 2`, `max_iterations = 5`. -/
theorem process_feedback_revise_increments_and_rejects_witness :
    (process_feedback ⟨SessionStatus.waiting_feedback, some "p", some "c", 2, 5⟩
        "f" "revise" allOkFb).2.1.iteration_count = (2 : Int) + 1 ∧
    ((process_feedback ⟨SessionStatus.waiting_feedback, some "p", some "c", 2, 5⟩
        "f" "revise" allOkFb).1 = max_iter_rejection ↔ (5 : Int) ≤ 2 + 1) :=
  process_feedback_revise_increments_and_rejects
    ⟨SessionStatus.waiting_feedback, some "p", some "c", 2, 5⟩ "f" "revise" allOkFb rfl

/-- Counterexample to C1 as stated: at `iteration_count = 5`,
`max_iterations = 5`, the revise call is rejected with the
maximum-iterations result, yet the session state IS mutated: the
counter moves from 5 to 6 instead of staying at 5. -/
theorem process_feedback_rejection_mutates_state :
    (process_feedback ⟨SessionStatus.waiting_feedback, some "p", some "c", 5, 5⟩
        "f" "revise" allOkFb).1 = max_iter_rejection ∧
    (process_feedback ⟨SessionStatus.waiting_feedback, some "p", some "c", 5, 5⟩
        "f" "revise" allOkFb).2.1.iteration_count = 6 ∧
    (6 : Int) ≠ 5 := ⟨rfl, rfl, by decide⟩

/-- Claim C2 (amended): along every operation sequence from a fresh
controller, `0 ≤ iteration_count` holds. (The upper bound
`iteration_count ≤ max_iterations` of the original claim is refuted by
`run_ops_iteration_exceeds_max`.) -/
theorem run_ops_iteration_nonneg (ops : List SessionOp) :
    0 ≤ (run_ops Orchestrator.fresh ops).iteration_count :=
  run_ops_iteration_nonneg_aux ops Orchestrator.fresh (by decide)

/-- Operation sequence witnessing that the iteration counter escapes the
`max_iterations` bound: one successful start, then six revise calls. -/
def c2_ops : List SessionOp :=
  [SessionOp.start "p" "c" allOkStart,
   SessionOp.feedback "f" "revise" allOkFb,
   SessionOp.feedback "f" "revise" allOkFb,
   SessionOp.feedback "f" "revise" allOkFb,
   SessionOp.feedback "f" "revise" allOkFb,
   SessionOp.feedback "f" "revise" allOkFb,
   SessionOp.feedback "f" "revise" allOkFb]

/-- Counterexample to C2 as stated: the state reached by `c2_ops` from a
fresh controller has `iteration_count = 6 > 5 = max_iterations`: the
invariant `iteration_count ≤ max_iterations` is not preserved, because
rejected revise calls keep incrementing the counter. -/
theorem run_ops_iteration_exceeds_max :
    (run_ops Orchestrator.fresh c2_ops).iteration_count = 6 ∧
    (run_ops Orchestrator.fresh c2_ops).max_iterations = 5 ∧
    ¬((run_ops Orchestrator.fresh c2_ops).iteration_count ≤
        (run_ops Orchestrator.fresh c2_ops).max_iterations) :=
  ⟨rfl, rfl, by decide⟩

/-- Claim C5: when all four role agents succeed, `start_session` returns
success and produces exactly this event trace: the five notifications
GENERATING_BRIEF, WRITING_DRAFT, REVIEWING, EDITING, WAITING_FEEDBACK,
each exactly once, in order, each emitted before the corresponding
role-agent call, all before the method returns. -/
theorem start_session_success_notifications (o : Orchestrator) (pid ch : String) :
    (start_session o pid ch allOkStart).1.success = true ∧
    (start_session o pid ch allOkStart).2.2 =
      [Event.notify ⟨"generating_brief", "资料管理员正在整理设定...", some pid, some ch, some 0⟩,
       Event.agentCall AgentName.archivist,
       Event.notify ⟨"writing_draft", "撰稿人正在撰写草稿...", some pid, some ch, some 0⟩,
       Event.agentCall AgentName.writer,
       Event.notify ⟨"reviewing", "审稿人正在审核草稿...", some pid, some ch, some 0⟩,
       Event.agentCall AgentName.reviewer,
       Event.notify ⟨"editing", "编辑正在修订草稿...", some pid, some ch, some 0⟩,
       Event.agentCall AgentName.editor,
       Event.notify ⟨"waiting_feedback", "等待用户反馈...", some pid, some ch, some 0⟩] ∧
    ((start_session o pid ch allOkStart).2.2).filterMap eventStatus =
      ["generating_brief", "writing_draft", "reviewing", "editing", "waiting_feedback"] :=
  ⟨rfl, rfl, rfl⟩

/-- Claim C6 (amended): `cancel` resets the status to IDLE, clears the
project and chapter identifiers, emits exactly one idle notification
(whose payload carries the literal iteration 0), and returns success —
but the controller field `iteration_count` itself is left unchanged. -/
theorem cancel_session_resets (o : Orchestrator) (pid : String) :
    (cancel_session o pid).2.1.current_status = SessionStatus.idle ∧
    (cancel_session o pid).2.1.current_project_id = none ∧
    (cancel_session o pid).2.1.current_chapter = none ∧
    (cancel_session o pid).2.1.iteration_count = o.iteration_count ∧
    (cancel_session o pid).2.2 =
      [Event.notify ⟨"idle", "Session cancelled", some pid, none, some 0⟩] ∧
    (cancel_session o pid).1 = ⟨true, "Session cancelled"⟩ :=
  ⟨rfl, rfl, rfl, rfl, rfl, rfl⟩

/-- Counterexample to C6 as stated: cancelling a session whose
`iteration_count` is 3 leaves the counter at 3 — it is not reset to 0 as
the claim asserts. -/
theorem cancel_session_keeps_iteration :
    (cancel_session ⟨SessionStatus.waiting_feedback, some "p", some "c", 3, 5⟩
        "p").2.1.iteration_count = 3 ∧
    (3 : Int) ≠ 0 := ⟨rfl, by decide⟩

/-! ## Provider gateway (llm_gateway/gateway.py) -/

/-- Error categories produced by backend clients. -/
inductive ErrorCategory where
  | auth
  | invalid_request
  | timeout
  | connection
  | rate_limit
  | server_error
  | unknown
deriving DecidableEq, Repr

/-- Modelled from the spec: `classify_error` lives in
`app/llm_gateway/errors.py`, which is not among the sources (only its
caller `gateway.py` is); the policy table of spec section 4.3 defines it:
auth and invalid_request are terminal, everything else (timeout,
connection, rate_limit, server_error, unknown) is retryable. -/
def classify_error : ErrorCategory → Bool × String
  | .auth => (false, "auth")
  | .invalid_request => (false, "invalid_request")
  | .timeout => (true, "timeout")
  | .connection => (true, "connection")
  | .rate_limit => (true, "rate_limit")
  | .server_error => (true, "server_error")
  | .unknown => (true, "unknown")

/-- A persisted provider profile; only the fields that influence gateway
resolution are kept (credentials/model parameters configure the
constructed client but not which client is chosen). -/
structure Profile where
  id : String
  provider : String
deriving DecidableEq, Repr

/-- The external profile store (`llm_config_service`): persisted profiles
and the agent-to-profile assignment table. -/
structure ProfileStore where
  profiles : List Profile
  assignments : List (String × String)
deriving DecidableEq, Repr

/-- A materialized backend client in the gateway cache; observably it
carries its `get_provider_name()` string. Each provider class returns its
kind ("openai", "qwen", "mock", ...). -/
structure ProviderInst where
  provider_name : String
deriving DecidableEq, Repr

/-- Provider kinds with a constructor branch in
`_create_provider_from_profile`; any other kind yields `None`. The
openai/anthropic/deepseek classes are not among the sources but, like
every present provider class, report their kind as provider name. -/
def known_kinds : List String :=
  ["openai", "anthropic", "deepseek", "qwen", "kimi", "glm", "gemini", "grok", "custom"]

/-- Embedding of `_create_provider_from_profile`. -/
def create_provider_from_profile (p : Profile) : Option ProviderInst :=
  if p.provider ∈ known_kinds then some ⟨p.provider⟩ else none

/-- Embedding of `llm_config_service.get_profile_by_id`. -/
def get_profile_by_id (s : ProfileStore) (profile_id : String) : Option Profile :=
  s.profiles.find? (fun p => p.id == profile_id)

/-- Roles that may carry an assignment (`get_assignments` only emits
these keys). -/
def allowed_agents : List String := ["archivist", "writer", "editor"]

/-- Embedding of `llm_config_service.get_assignments` combined with the
`assignments.get(agent_name)` read in the gateway: `none` stands for the
falsy cases (role outside the allowed set, no entry, empty entry, or an
entry whose profile id is not among the stored profiles). -/
def get_assignment (s : ProfileStore) (agent : String) : Option String :=
  if agent ∈ allowed_agents then
    match s.assignments.lookup agent with
    | none => none
    | some raw =>
      if raw = "" then none
      else if (s.profiles.find? (fun p => p.id == raw)).isSome then some raw
      else none
  else none

/-- Gateway state: the insertion-ordered profile-id-to-client cache, the
demo/offline flag, the retry ceiling, and the usage counters. -/
structure LLMGateway where
  providers : List (String × ProviderInst)
  mock_mode : Bool
  max_retries : Nat
  total_tokens : Nat
  total_requests : Nat
deriving DecidableEq, Repr

/-- Insert-or-update for the ordered dict: an existing key is updated in
place, a new key is appended, matching Python dict semantics. -/
def dict_insert (d : List (String × ProviderInst)) (k : String) (v : ProviderInst) :
    List (String × ProviderInst) :=
  if (d.lookup k).isSome then d.map (fun kv => if kv.1 == k then (k, v) else kv)
  else d ++ [(k, v)]

/-- Embedding of `_init_profiles`: build clients for every stored profile
whose kind is constructible. -/
def init_profiles (s : ProfileStore) : List (String × ProviderInst) :=
  s.profiles.foldl
    (fun d p =>
      match create_provider_from_profile p with
      | some inst => dict_insert d p.id inst
      | none => d)
    []

/-- Embedding of `_ensure_mock_provider`. -/
def ensure_mock_provider (d : List (String × ProviderInst)) : List (String × ProviderInst) :=
  if (d.lookup "mock").isSome then d else d ++ [("mock", ⟨"mock"⟩)]

/-- Embedding of `LLMGateway.__init__`: initialize profiles, ensure the
mock provider, fix `max_retries = 5`, zero the counters. -/
def LLMGateway.init (s : ProfileStore) (mock_mode : Bool) : LLMGateway :=
  { providers := ensure_mock_provider (init_profiles s)
    mock_mode := mock_mode
    max_retries := 5
    total_tokens := 0
    total_requests := 0 }

/-- Embedding of `_try_load_profile_by_id`: on a cache miss, fetch the
profile from the store, construct the client, and append it to the
cache; returns the updated gateway and whether the id is now loaded. -/
def try_load_profile_by_id (g : LLMGateway) (s : ProfileStore) (profile_id : String) :
    LLMGateway × Bool :=
  if profile_id = "" then (g, false)
  else if (g.providers.lookup profile_id).isSome then (g, true)
  else
    match get_profile_by_id s profile_id with
    | none => (g, false)
    | some p =>
      match create_provider_from_profile p with
      | none => (g, false)
      | some inst => ({ g with providers := dict_insert g.providers profile_id inst }, true)

/-- Embedding of `get_provider_for_agent`: mock mode short-circuits to
"mock"; an unassigned role falls back to "mock" whenever the mock
provider is cached, raising the configuration error only otherwise; an
assigned role is lazily loaded on a cache miss and fails if still not
loadable. -/
def get_provider_for_agent (g : LLMGateway) (s : ProfileStore) (agent_name : String) :
    Except String (String × LLMGateway) :=
  if g.mock_mode then
    Except.ok ("mock", { g with providers := ensure_mock_provider g.providers })
  else
    match get_assignment s agent_name with
    | none =>
      if (g.providers.lookup "mock").isSome then Except.ok ("mock", g)
      else Except.error ("No LLM profile assigned for agent '" ++ agent_name ++ "'.")
    | some profile_id =>
      let g2 :=
        if (g.providers.lookup profile_id).isSome then g
        else (try_load_profile_by_id g s profile_id).1
      if (g2.providers.lookup profile_id).isSome then Except.ok (profile_id, g2)
      else
        Except.error
          ("Assigned LLM profile '" ++ profile_id ++ "' not loaded for agent '"
            ++ agent_name ++ "'.")

/-- Python `str(provider)` for the not-found message, where the argument
may be `None`. -/
def provider_repr : Option String → String
  | some p => p
  | none => "None"

/-- Embedding of the provider-resolution part of `LLMGateway.chat` (and
identically `stream_chat`): lazy-load on miss, then exact profile-id
lookup, then the fallback scan for the first cached client whose
provider name equals the argument, else the not-found error. -/
def chat_resolve (g : LLMGateway) (s : ProfileStore) (provider : Option String) :
    Except String (ProviderInst × LLMGateway) :=
  let g2 :=
    match provider with
    | some p => if (g.providers.lookup p).isNone then (try_load_profile_by_id g s p).1 else g
    | none => g
  match (match provider with | some p => g2.providers.lookup p | none => none) with
  | some inst => Except.ok (inst, g2)
  | none =>
    match g2.providers.find? (fun kv => some kv.2.provider_name == provider) with
    | some kv => Except.ok (kv.2, g2)
    | none => Except.error ("Profile/Provider '" ++ provider_repr provider ++ "' not found.")

/-- Structured response returned by `_execute_chat`: the backend payload
plus the provider tag added by the gateway (elapsed time is wall-clock
and not modelled). -/
structure TaggedResponse where
  content : String
  total_tokens : Nat
  model : String
  provider : String
deriving DecidableEq, Repr

/-- Backend response payload. -/
structure ChatResponse where
  content : String
  total_tokens : Nat
  model : String
deriving DecidableEq, Repr

/-- Outcome of one raw backend `provider.chat` call. -/
inductive ChatOutcome where
  | ok (resp : ChatResponse)
  | err (e : ErrorCategory)
deriving DecidableEq, Repr

/-- Embedding of `_execute_chat`: on success, increment `total_requests`
and add the reported usage to `total_tokens`, then return the tagged
response; a backend failure propagates before any counter is touched. -/
def execute_chat (g : LLMGateway) (pname : String) (o : ChatOutcome) :
    Except ErrorCategory TaggedResponse × LLMGateway :=
  match o with
  | ChatOutcome.err e => (Except.error e, g)
  | ChatOutcome.ok r =>
    (Except.ok ⟨r.content, r.total_tokens, r.model, pname⟩,
      { g with
        total_requests := g.total_requests + 1
        total_tokens := g.total_tokens + r.total_tokens })

/-- Retry loop of `_chat_with_retry`, fueled by the number of remaining
attempts; the backend behaviour is the per-attempt outcome function
`att`. A non-retryable error escapes immediately; a retryable error
retries (after a backoff sleep, timing not modelled) until attempts are
exhausted, then the last error escapes. The fuel-0 base case is
unreachable from `chat_with_retry` since `max_retries = 5 >= 1`. -/
def chat_with_retry_aux (pname : String) (att : Nat → ChatOutcome) :
    LLMGateway → Nat → Nat → Except ErrorCategory TaggedResponse × LLMGateway
  | g, _, 0 => (Except.error ErrorCategory.unknown, g)
  | g, i, fuel + 1 =>
    match execute_chat g pname (att i) with
    | (Except.ok r, g2) => (Except.ok r, g2)
    | (Except.error e, g2) =>
      if (classify_error e).1 then
        match fuel with
        | 0 => (Except.error e, g2)
        | _ + 1 => chat_with_retry_aux pname att g2 (i + 1) fuel
      else (Except.error e, g2)

/-- Embedding of `_chat_with_retry`: up to `max_retries` attempts. -/
def chat_with_retry (g : LLMGateway) (pname : String) (att : Nat → ChatOutcome) :
    Except ErrorCategory TaggedResponse × LLMGateway :=
  chat_with_retry_aux pname att g 0 g.max_retries

/-- Embedding of `get_stats`: counters plus the loaded profile ids. -/
def get_stats (g : LLMGateway) : Nat × Nat × List String :=
  (g.total_requests, g.total_tokens, g.providers.map (fun kv => kv.1))

/-- Embedding of the module-level `get_gateway`: return the existing
global instance or construct a fresh one. -/
def get_gateway (s : ProfileStore) (mock_mode : Bool) (inst : Option LLMGateway) :
    LLMGateway × Option LLMGateway :=
  match inst with
  | some g => (g, some g)
  | none =>
    let g := LLMGateway.init s mock_mode
    (g, some g)

/-- Embedding of the module-level `reset_gateway`: drop the global
instance so the next `get_gateway` rebuilds it from the current
configuration. -/
def reset_gateway (_inst : Option LLMGateway) : Option LLMGateway := none

/-! ## Gateway lemmas -/

/-- Appending a fresh key to an association list makes it found. -/
theorem lookup_append_single (d : List (String × ProviderInst)) (k : String) (v : ProviderInst)
    (h : d.lookup k = none) : (d ++ [(k, v)]).lookup k = some v := by
  induction d with
  | nil => simp [List.lookup]
  | cons a tl ih =>
    rcases a with ⟨k1, v1⟩
    simp only [List.cons_append, List.lookup] at h ⊢
    cases hk : (k == k1) with
    | true => simp only [hk] at h; simp at h
    | false => simp only [hk] at h ⊢; exact ih h

/-- After `_ensure_mock_provider` the mock provider is always cached. -/
theorem ensure_mock_lookup (d : List (String × ProviderInst)) :
    ((ensure_mock_provider d).lookup "mock").isSome = true := by
  unfold ensure_mock_provider
  split
  · next h => exact h
  · next h =>
    cases hl : d.lookup "mock" with
    | some v => rw [hl] at h; simp at h
    | none => rw [lookup_append_single d _ _ hl]; rfl

/-! ## Claims about the gateway -/

/-- Claim C3: with retry enabled and `max_retries = 5` (the value fixed
by `__init__`), four consecutive retryable failures followed by a
success make `chat` return the successful (provider-tagged) response
with `total_requests` incremented by exactly 1 and `total_tokens`
incremented by the reported usage (failed attempts count nothing);
five consecutive retryable failures make `chat` raise the last error
with both counters (and all gateway state) unchanged. -/
theorem chat_with_retry_counting
    (g : LLMGateway) (pname : String) (att attF : Nat → ChatOutcome)
    (r : ChatResponse) (e0 e1 e2 e3 f0 f1 f2 f3 f4 : ErrorCategory)
    (hmr : g.max_retries = 5)
    (h0 : att 0 = ChatOutcome.err e0) (hc0 : (classify_error e0).1 = true)
    (h1 : att 1 = ChatOutcome.err e1) (hc1 : (classify_error e1).1 = true)
    (h2 : att 2 = ChatOutcome.err e2) (hc2 : (classify_error e2).1 = true)
    (h3 : att 3 = ChatOutcome.err e3) (hc3 : (classify_error e3).1 = true)
    (h4 : att 4 = ChatOutcome.ok r)
    (k0 : attF 0 = ChatOutcome.err f0) (kc0 : (classify_error f0).1 = true)
    (k1 : attF 1 = ChatOutcome.err f1) (kc1 : (classify_error f1).1 = true)
    (k2 : attF 2 = ChatOutcome.err f2) (kc2 : (classify_error f2).1 = true)
    (k3 : attF 3 = ChatOutcome.err f3) (kc3 : (classify_error f3).1 = true)
    (k4 : attF 4 = ChatOutcome.err f4) (kc4 : (classify_error f4).1 = true) :
    chat_with_retry g pname att =
      (Except.ok ⟨r.content, r.total_tokens, r.model, pname⟩,
        { g with
          total_requests := g.total_requests + 1
          total_tokens := g.total_tokens + r.total_tokens }) ∧
    chat_with_retry g pname attF = (Except.error f4, g) := by
  constructor <;>
    simp [chat_with_retry, hmr, chat_with_retry_aux, execute_chat,
      h0, hc0, h1, hc1, h2, hc2, h3, hc3, h4,
      k0, kc0, k1, kc1, k2, kc2, k3, kc3, k4, kc4]

/-- Witness for C3 on a freshly initialized gateway: four timeouts then
a success, versus five server errors. -/
theorem chat_with_retry_counting_witness :
    chat_with_retry (LLMGateway.init ⟨[], []⟩ false) "mock"
        (fun i => if i < 4 then ChatOutcome.err ErrorCategory.timeout
                  else ChatOutcome.ok ⟨"hi", 42, "m"⟩) =
      (Except.ok ⟨"hi", 42, "m", "mock"⟩,
        { LLMGateway.init ⟨[], []⟩ false with total_requests := 1, total_tokens := 42 }) ∧
    chat_with_retry (LLMGateway.init ⟨[], []⟩ false) "mock"
        (fun _ => ChatOutcome.err ErrorCategory.server_error) =
      (Except.error ErrorCategory.server_error, LLMGateway.init ⟨[], []⟩ false) :=
  chat_with_retry_counting (LLMGateway.init ⟨[], []⟩ false) "mock"
    (fun i => if i < 4 then ChatOutcome.err ErrorCategory.timeout
              else ChatOutcome.ok ⟨"hi", 42, "m"⟩)
    (fun _ => ChatOutcome.err ErrorCategory.server_error)
    ⟨"hi", 42, "m"⟩
    ErrorCategory.timeout ErrorCategory.timeout ErrorCategory.timeout ErrorCategory.timeout
    ErrorCategory.server_error ErrorCategory.server_error ErrorCategory.server_error
    ErrorCategory.server_error ErrorCategory.server_error
    rfl rfl rfl rfl rfl rfl rfl rfl rfl rfl rfl rfl rfl rfl rfl rfl rfl rfl rfl rfl

/-- Claim C4 (amended): in non-mock mode, a role without a (valid)
assignment resolves to the reserved "mock" profile id on any gateway as
constructed by `__init__` (which always caches the mock provider); the
configuration error naming the role is raised only when the mock
provider is absent from the cache, which initialization rules out. -/
theorem get_provider_for_agent_unassigned_mock_fallback
    (s0 s : ProfileStore) (agent : String)
    (hun : get_assignment s agent = none) :
    get_provider_for_agent (LLMGateway.init s0 false) s agent =
      Except.ok ("mock", LLMGateway.init s0 false) := by
  unfold get_provider_for_agent
  simp only [LLMGateway.init, hun, ensure_mock_lookup, if_true, Bool.false_eq_true, if_false]

/-- Witness for C4 (amended): the empty store leaves "archivist"
unassigned and resolution yields the mock profile id. -/
theorem get_provider_for_agent_unassigned_mock_fallback_witness :
    get_provider_for_agent (LLMGateway.init ⟨[], []⟩ false) ⟨[], []⟩ "archivist" =
      Except.ok ("mock", LLMGateway.init ⟨[], []⟩ false) :=
  get_provider_for_agent_unassigned_mock_fallback ⟨[], []⟩ ⟨[], []⟩ "archivist" rfl

/-- Counterexample to C4 as stated: in non-mock mode with an empty
assignment table, resolving "writer" does not fail with a configuration
error — it returns the "mock" profile id. -/
theorem get_provider_for_agent_unassigned_returns_mock :
    get_provider_for_agent (LLMGateway.init ⟨[], []⟩ false) ⟨[], []⟩ "writer" =
      Except.ok ("mock", LLMGateway.init ⟨[], []⟩ false) ∧
    (get_provider_for_agent (LLMGateway.init ⟨[], []⟩ false) ⟨[], []⟩ "writer").toOption.isSome
      = true :=
  ⟨rfl, rfl⟩

/-- Claim C7 (amended): `reset_gateway` discards the whole global
instance; the gateway observed after a reset is a freshly constructed
one, so its `total_requests` and `total_tokens` read 0 regardless of the
counters accumulated before the reset — the counters are not preserved. -/
theorem reset_gateway_rebuilds_fresh (s : ProfileStore) (b : Bool) (inst : Option LLMGateway) :
    (get_gateway s b (reset_gateway inst)).1.total_requests = 0 ∧
    (get_gateway s b (reset_gateway inst)).1.total_tokens = 0 ∧
    (get_gateway s b (reset_gateway inst)).1 = LLMGateway.init s b :=
  ⟨rfl, rfl, rfl⟩

/-- Gateway instance with nonzero counters, for the C7 counterexample. -/
def busy_gateway : LLMGateway :=
  { LLMGateway.init ⟨[], []⟩ false with total_requests := 3, total_tokens := 7 }

/-- Counterexample to C7 as stated: before the reset the stats report
(3, 7); after `reset_gateway` the next `get_gateway` yields stats
(0, 0), so the counters are not left unchanged by reset. -/
theorem reset_gateway_loses_counters :
    (get_stats busy_gateway).1 = 3 ∧
    (get_stats busy_gateway).2.1 = 7 ∧
    (get_stats (get_gateway ⟨[], []⟩ false (reset_gateway (some busy_gateway))).1).1 = 0 ∧
    (get_stats (get_gateway ⟨[], []⟩ false (reset_gateway (some busy_gateway))).1).2.1 = 0 ∧
    (0 : Nat) ≠ 3 ∧ (0 : Nat) ≠ 7 :=
  ⟨rfl, rfl, rfl, rfl, by decide, by decide⟩

/-- Claim C10: when the `provider` argument of `chat` is neither a cached
profile id nor lazily loadable (the id lookup still misses after the
lazy-load step), resolution falls back to the first cached client whose
provider name equals the argument and silently uses it; the
"Profile/Provider not found" error is raised exactly when no cached
client matches by name either. -/
theorem chat_resolve_name_fallback
    (g : LLMGateway) (s : ProfileStore) (p : String) (kv : String × ProviderInst)
    (hmiss : ((try_load_profile_by_id g s p).1.providers.lookup p) = none) :
    (((try_load_profile_by_id g s p).1.providers.find?
        (fun e => e.2.provider_name == p)) = some kv →
      chat_resolve g s (some p) =
        Except.ok (kv.2, (try_load_profile_by_id g s p).1)) ∧
    (chat_resolve g s (some p) =
        Except.error ("Profile/Provider '" ++ p ++ "' not found.") ↔
      ((try_load_profile_by_id g s p).1.providers.find?
        (fun e => e.2.provider_name == p)) = none) := by
  have hg : g.providers.lookup p = none := by
    by_cases h0 : (g.providers.lookup p).isSome
    · have heq : (try_load_profile_by_id g s p).1 = g := by
        unfold try_load_profile_by_id
        by_cases hp : p = ""
        · simp [hp]
        · simp [hp, h0]
      rw [heq] at hmiss
      rw [hmiss] at h0
      simp at h0
    · exact Option.not_isSome_iff_eq_none.mp h0
  constructor
  · intro hfind
    simp [chat_resolve, hg, hmiss, hfind, provider_repr]
  · constructor
    · intro herr
      cases hf : ((try_load_profile_by_id g s p).1.providers.find?
          (fun e => e.2.provider_name == p)) with
      | none => rfl
      | some kv2 => simp [chat_resolve, hg, hmiss, hf, provider_repr] at herr
    · intro hf
      simp [chat_resolve, hg, hmiss, hf, provider_repr]

/-- Witness for C10: a cache holding one client under profile id "id1"
with provider name "openai", an empty store, and the argument "openai":
the id lookup and lazy load miss, the name scan finds the client. -/
theorem chat_resolve_name_fallback_witness :
    (((try_load_profile_by_id ⟨[("id1", ⟨"openai"⟩)], false, 5, 0, 0⟩ ⟨[], []⟩
          "openai").1.providers.find?
        (fun e => e.2.provider_name == "openai")) = some ("id1", ⟨"openai"⟩) →
      chat_resolve ⟨[("id1", ⟨"openai"⟩)], false, 5, 0, 0⟩ ⟨[], []⟩ (some "openai") =
        Except.ok (⟨"openai"⟩,
          (try_load_profile_by_id ⟨[("id1", ⟨"openai"⟩)], false, 5, 0, 0⟩ ⟨[], []⟩
            "openai").1)) ∧
    (chat_resolve ⟨[("id1", ⟨"openai"⟩)], false, 5, 0, 0⟩ ⟨[], []⟩ (some "openai") =
        Except.error ("Profile/Provider '" ++ "openai" ++ "' not found.") ↔
      (((try_load_profile_by_id ⟨[("id1", ⟨"openai"⟩)], false, 5, 0, 0⟩ ⟨[], []⟩
          "openai").1.providers.find?
        (fun e => e.2.provider_name == "openai")) = none)) :=
  chat_resolve_name_fallback ⟨[("id1", ⟨"openai"⟩)], false, 5, 0, 0⟩ ⟨[], []⟩
    "openai" ("id1", ⟨"openai"⟩) rfl

/-! ## Token counter (context_engine/token_counter.py) -/

/-- Embedding of the `MODEL_CONTEXT_WINDOWS` table, in source order. -/
def MODEL_CONTEXT_WINDOWS : List (String × Nat) :=
  [("gpt-4o", 128000),
   ("gpt-4o-mini", 128000),
   ("gpt-4-turbo", 128000),
   ("gpt-4", 8192),
   ("gpt-3.5-turbo", 16385),
   ("gpt-3.5-turbo-16k", 16385),
   ("claude-3-5-sonnet-20241022", 200000),
   ("claude-3-5-sonnet", 200000),
   ("claude-3-opus", 200000),
   ("claude-3-sonnet", 200000),
   ("claude-3-haiku", 200000),
   ("claude-2", 100000),
   ("deepseek-chat", 64000),
   ("deepseek-coder", 64000),
   ("deepseek-reasoner", 64000),
   ("qwen-turbo", 131072),
   ("qwen-plus", 131072),
   ("qwen-max", 32768),
   ("qwen2.5-72b-instruct", 131072),
   ("moonshot-v1-8k", 8000),
   ("moonshot-v1-32k", 32000),
   ("moonshot-v1-128k", 128000),
   ("glm-4", 128000),
   ("glm-4-plus", 128000),
   ("glm-3-turbo", 128000),
   ("gemini-2.5-flash", 1000000),
   ("gemini-3-flash-preview", 1000000),
   ("gemini-pro", 32000),
   ("grok-beta", 131072),
   ("grok-2", 131072)]

/-- Conservative default context window. -/
def DEFAULT_CONTEXT_WINDOW : Nat := 32000

/-- Python `str.lower()`, modelled per character (all names involved are
ASCII, where the two agree). -/
def str_to_lower (s : String) : String := String.mk (s.data.map Char.toLower)

/-- Python `s.startswith(pre)`. -/
def starts_with (s pre : String) : Bool := List.isPrefixOf pre.data s.data

/-- Whether `needle` occurs as a contiguous substring of the character
list `hay` (embedding of the Python `needle in hay` test on strings). -/
def infix_chars (needle : List Char) : List Char → Bool
  | [] => List.isPrefixOf needle []
  | c :: cs => List.isPrefixOf needle (c :: cs) || infix_chars needle cs

/-- Substring test on strings. -/
def str_contains (hay needle : String) : Bool :=
  infix_chars needle.data hay.data

/-- The bidirectional startswith scan over the table keys, in table
order: a key matches when it is a prefix of the model name or the model
name is a prefix of the key. -/
def match_table_keys (ml : String) : Option Nat :=
  (MODEL_CONTEXT_WINDOWS.find?
    (fun kv => starts_with ml kv.1 || starts_with kv.1 ml)).map (fun kv => kv.2)

/-- Inference from a literal "...k" fragment of the model name, in the
source's test order. -/
def infer_from_k (ml : String) : Option Nat :=
  if str_contains ml "128k" then some 128000
  else if str_contains ml "64k" then some 64000
  else if str_contains ml "32k" then some 32000
  else if str_contains ml "16k" then some 16000
  else if str_contains ml "8k" then some 8000
  else none

/-- Embedding of `get_model_context_window`: empty-name guard, lowercase,
exact table lookup, bidirectional key scan, "k"-fragment inference, then
the conservative default. -/
def get_model_context_window (model_name : String) : Nat :=
  if model_name = "" then DEFAULT_CONTEXT_WINDOW
  else
    let ml := str_to_lower model_name
    match MODEL_CONTEXT_WINDOWS.lookup ml with
    | some v => v
    | none =>
      match match_table_keys ml with
      | some v => v
      | none =>
        match infer_from_k ml with
        | some v => v
        | none => DEFAULT_CONTEXT_WINDOW

/-- Claim C9: for every non-empty model name the resolution order is:
exact (lowercased) table lookup; else the first bidirectional
startswith match against the table keys; else inference from a literal
128k/64k/32k/16k/8k fragment; else the conservative default 32000; in
particular context_window("gpt-4o") = 128000 and
context_window("totally-unknown-model") = 32000. -/
theorem get_model_context_window_resolution (m : String) (v : Nat) (hm : m ≠ "") :
    (MODEL_CONTEXT_WINDOWS.lookup (str_to_lower m) = some v → get_model_context_window m = v) ∧
    (MODEL_CONTEXT_WINDOWS.lookup (str_to_lower m) = none →
      match_table_keys (str_to_lower m) = some v →
      get_model_context_window m = v) ∧
    (MODEL_CONTEXT_WINDOWS.lookup (str_to_lower m) = none →
      match_table_keys (str_to_lower m) = none →
      infer_from_k (str_to_lower m) = some v →
      get_model_context_window m = v) ∧
    (MODEL_CONTEXT_WINDOWS.lookup (str_to_lower m) = none →
      match_table_keys (str_to_lower m) = none →
      infer_from_k (str_to_lower m) = none →
      get_model_context_window m = DEFAULT_CONTEXT_WINDOW) ∧
    get_model_context_window "gpt-4o" = 128000 ∧
    get_model_context_window "totally-unknown-model" = 32000 := by
  refine ⟨?_, ?_, ?_, ?_, ?_, ?_⟩
  · intro h1
    simp [get_model_context_window, hm, h1]
  · intro h1 h2
    simp [get_model_context_window, hm, h1, h2]
  · intro h1 h2 h3
    simp [get_model_context_window, hm, h1, h2, h3]
  · intro h1 h2 h3
    simp [get_model_context_window, hm, h1, h2, h3]
  · rfl
  · rfl

/-- Witness for C9 at "gpt-4o-2024": no exact entry, but the key
"gpt-4o" is a prefix of the name, so the scan yields 128000. -/
theorem get_model_context_window_resolution_witness :
    (MODEL_CONTEXT_WINDOWS.lookup (str_to_lower "gpt-4o-2024") = some 128000 →
      get_model_context_window "gpt-4o-2024" = 128000) ∧
    (MODEL_CONTEXT_WINDOWS.lookup (str_to_lower "gpt-4o-2024") = none →
      match_table_keys (str_to_lower "gpt-4o-2024") = some 128000 →
      get_model_context_window "gpt-4o-2024" = 128000) ∧
    (MODEL_CONTEXT_WINDOWS.lookup (str_to_lower "gpt-4o-2024") = none →
      match_table_keys (str_to_lower "gpt-4o-2024") = none →
      infer_from_k (str_to_lower "gpt-4o-2024") = some 128000 →
      get_model_context_window "gpt-4o-2024" = 128000) ∧
    (MODEL_CONTEXT_WINDOWS.lookup (str_to_lower "gpt-4o-2024") = none →
      match_table_keys (str_to_lower "gpt-4o-2024") = none →
      infer_from_k (str_to_lower "gpt-4o-2024") = none →
      get_model_context_window "gpt-4o-2024" = DEFAULT_CONTEXT_WINDOW) ∧
    get_model_context_window "gpt-4o" = 128000 ∧
    get_model_context_window "totally-unknown-model" = 32000 :=
  get_model_context_window_resolution "gpt-4o-2024" 128000 (by decide)

/-! ## Token budgeter (context_engine/budgeter.py)

Python floats are IEEE-754 binary64 values. `get_budget` computes
`int(self.total_tokens * allocation)` in that arithmetic, so the model
represents a float as an exact dyadic `m * 2^e` and implements
round-to-nearest (ties to even) for the normal range, which covers
every magnitude involved here (no overflow or subnormal handling is
needed for token budgets). -/

/-- A binary64 value, as the exact dyadic rational `m * 2^e`. -/
structure Binary64 where
  m : Int
  e : Int
deriving DecidableEq, Repr

/-- Fueled search for the floor of log2 of `a / d` from above (`a >= d`). -/
def flog2_up (d : Int) (a : Int) : Nat → Int → Int
  | 0, e => e
  | fuel + 1, e => if a < 2 * d then e else flog2_up (2 * d) a fuel (e + 1)

/-- Fueled search for the floor of log2 of `a / d` from below (`a < d`). -/
def flog2_down (a : Int) (d : Int) : Nat → Int → Int
  | 0, e => e
  | fuel + 1, e => if d ≤ a then e else flog2_down (2 * a) d fuel (e - 1)

/-- Floor of log2 of the positive rational `a / d` (fuel 1100 covers the
whole binary64 exponent range). -/
def dy_floor_log2 (a d : Int) : Int :=
  if d ≤ a then flog2_up d a 1100 0 else flog2_down a d 1100 0

/-- Round the rational `num / den` (with `den > 0`) to the nearest
binary64 value, ties to even: scale the magnitude into `[2^52, 2^53)`,
round the 53-bit significand, keep the exponent. -/
def fp_of_rat (num den : Int) : Binary64 :=
  if num = 0 then ⟨0, 0⟩
  else
    let s : Int := if num < 0 then -1 else 1
    let a := if num < 0 then -num else num
    let e := dy_floor_log2 a den
    let p := if 0 ≤ 52 - e then (a * 2 ^ (52 - e).toNat, den) else (a, den * 2 ^ (e - 52).toNat)
    let q := Int.fdiv p.1 p.2
    let r := p.1 - q * p.2
    let m := if 2 * r < p.2 then q
             else if p.2 < 2 * r then q + 1
             else if q % 2 = 0 then q else q + 1
    ⟨s * m, e - 52⟩

/-- Python `float(n)` of an int. -/
def fp_of_int (n : Int) : Binary64 := fp_of_rat n 1

/-- IEEE multiplication of two binary64 values: the exact dyadic product
rounded back to binary64. -/
def b64_mul_fp (x y : Binary64) : Binary64 :=
  let m := x.m * y.m
  let e := x.e + y.e
  if 0 ≤ e then fp_of_rat (m * 2 ^ e.toNat) 1 else fp_of_rat m (2 ^ (-e).toNat)

/-- Python `int(x)` of a float: truncation toward zero. -/
def b64_trunc_int (x : Binary64) : Int :=
  if 0 ≤ x.e then x.m * 2 ^ x.e.toNat else Int.tdiv x.m (2 ^ (-x.e).toNat)

/-- The `context_budget` section of the configuration: the optional
total and the optional per-category fractions, the latter already
binary64 values (Python reads them as floats). -/
structure BudgetConfig where
  total_tokens : Option Int
  system_rules : Option Binary64
  cards : Option Binary64
  canon : Option Binary64
  summaries : Option Binary64
  current_draft : Option Binary64
  output_reserve : Option Binary64
deriving DecidableEq, Repr

/-- State of a `TokenBudgeter` instance. -/
structure TokenBudgeter where
  total_tokens : Int
  allocations : List (String × Binary64)
deriving DecidableEq, Repr

/-- Embedding of `TokenBudgeter.__init__`: config values with the
source's defaults (128000 total; fractions 0.05, 0.15, 0.10, 0.20,
0.30, 0.20, each the binary64 nearest the decimal literal). -/
def TokenBudgeter.mk_of_config (cfg : BudgetConfig) : TokenBudgeter :=
  { total_tokens := cfg.total_tokens.getD 128000
    allocations :=
      [("system_rules", cfg.system_rules.getD (fp_of_rat 5 100)),
       ("cards", cfg.cards.getD (fp_of_rat 15 100)),
       ("canon", cfg.canon.getD (fp_of_rat 10 100)),
       ("summaries", cfg.summaries.getD (fp_of_rat 20 100)),
       ("current_draft", cfg.current_draft.getD (fp_of_rat 30 100)),
       ("output_reserve", cfg.output_reserve.getD (fp_of_rat 20 100))] }

/-- Embedding of `TokenBudgeter.get_budget`: look the category up with
default 0.0, multiply in float arithmetic, truncate with `int()`. -/
def get_budget (b : TokenBudgeter) (component : String) : Int :=
  let allocation := (b.allocations.lookup component).getD ⟨0, 0⟩
  b64_trunc_int (b64_mul_fp (fp_of_int b.total_tokens) allocation)

/-- Claim C8 (amended): `get_budget` is the `int()`-truncation of the
binary64 product `total_tokens * fraction`; a category absent from the
allocation map yields 0; at the spec's instance (total 128000, fraction
0.3) the float result agrees with the exact floor, 38400. The exact
floor of `total * (n/d)` is written `Int.fdiv (total * n) d`. -/
theorem get_budget_fp_semantics (b : TokenBudgeter) (component : String)
    (h : b.allocations.lookup component = none) :
    get_budget b component = 0 ∧
    get_budget
      (TokenBudgeter.mk_of_config
        ⟨some 128000, some (fp_of_rat 3 10), none, none, none, none, none⟩)
      "system_rules" = 38400 ∧
    Int.fdiv (128000 * 3) 10 = 38400 := by
  refine ⟨?_, by decide, by decide⟩
  simp only [get_budget, h, Option.getD]
  unfold b64_mul_fp
  simp only [mul_zero, add_zero]
  split <;> simp [fp_of_rat, b64_trunc_int]

/-- Witness for C8 (amended): the default configuration has no
"conversation" category, so its budget is 0. -/
theorem get_budget_fp_semantics_witness :
    get_budget (TokenBudgeter.mk_of_config ⟨none, none, none, none, none, none, none⟩)
      "conversation" = 0 ∧
    get_budget
      (TokenBudgeter.mk_of_config
        ⟨some 128000, some (fp_of_rat 3 10), none, none, none, none, none⟩)
      "system_rules" = 38400 ∧
    Int.fdiv (128000 * 3) 10 = 38400 :=
  get_budget_fp_semantics
    (TokenBudgeter.mk_of_config ⟨none, none, none, none, none, none, none⟩)
    "conversation" rfl

/-- Configuration exhibiting the float/exact divergence: total 100 and
fraction 0.29 (the binary64 nearest 29/100). -/
def c8_config : BudgetConfig :=
  ⟨some 100, some (fp_of_rat 29 100), none, none, none, none, none⟩

/-- Counterexample to C8 as stated: with total_tokens = 100 and fraction
0.29 the code computes int(100 * 0.29) = 28 in binary64 arithmetic,
while the floor over exact arithmetic is floor(100 * 29/100) = 29 — so
`get_budget` does not equal the exact-arithmetic floor for every
configuration. -/
theorem get_budget_not_exact_floor :
    get_budget (TokenBudgeter.mk_of_config c8_config) "system_rules" = 28 ∧
    Int.fdiv (100 * 29) 100 = 29 ∧
    (28 : Int) ≠ 29 :=
  ⟨by decide, by decide, by decide⟩
